import Mathlib

/-!
Verification of the AURORA BMI scoring pipeline.

This file is a shallow embedding of the core scoring pipeline of the
repository: the four feature calculators (src/aurora/features/vpb.py,
ipb.py, sbc.py, ipo.py and aggregator.py), the rolling baseline
(src/aurora/normalization/rolling.py), the normalization methods and
pipeline (src/aurora/normalization/methods.py, pipeline.py), the
compositor (src/aurora/scoring/composite.py), the scoring engine
(src/aurora/scoring/engine.py) and the result types with their
serialization (src/aurora/core/types.py).

Modelling conventions:
* Python floats are modelled as exact numbers: rationals (ℚ) in the
  feature layer, which only uses field arithmetic, and reals (ℝ) in the
  normalization/scoring layer, which uses exp and sqrt.  Float rounding
  error, NaN and infinities are outside the model.
* Python `None` becomes `Option.none`; Python dataclasses become
  structures; dates become integers (only their ordering matters here).
* Python dict iteration follows insertion order, which the embeddings
  reproduce with explicit lists in the same order as the source.
* None of the embedded functions has an error path because none of the
  corresponding source functions contains a `raise`: invalid data flows
  through `None` values, exactly as in the source.
* Logging calls and f-string explanation text are not modelled; the
  `explanation` field is kept as a string but its formatted content is
  outside the model.
-/

namespace Aurora

/-- Band enum from src/aurora/core/types.py (class Band). -/
inductive Band where
  | GREEN
  | LIGHT_GREEN
  | YELLOW
  | RED
deriving DecidableEq, Repr

/-- String value of the Band enum member (Band(str, Enum) in the source). -/
def Band.value : Band → String
  | .GREEN => "GREEN"
  | .LIGHT_GREEN => "LIGHT_GREEN"
  | .YELLOW => "YELLOW"
  | .RED => "RED"

/-- Band.description property from src/aurora/core/types.py. -/
def Band.description : Band → String
  | .GREEN => "Healthy, broad participation"
  | .LIGHT_GREEN => "Moderate participation"
  | .YELLOW => "Weakening participation"
  | .RED => "Poor, narrow participation"

/-- BaselineStatus enum from src/aurora/core/types.py. -/
inductive BaselineStatus where
  | COMPLETE
  | PARTIAL
  | INSUFFICIENT
deriving DecidableEq, Repr

/-- String value of the BaselineStatus enum member. -/
def BaselineStatus.value : BaselineStatus → String
  | .COMPLETE => "COMPLETE"
  | .PARTIAL => "PARTIAL"
  | .INSUFFICIENT => "INSUFFICIENT"

/-- VPBResult dataclass from src/aurora/features/vpb.py. -/
structure VPBResult where
  value : Option ℚ
  v_adv : ℚ
  v_dec : ℚ
  total_volume : ℚ
  is_valid : Bool
  message : String

/-- VolumeParticipationBreadth.calculate from src/aurora/features/vpb.py
(lines 53-113): `None` inputs, negative inputs and a zero total are the
three invalid branches; otherwise the value is v_adv / (v_adv + v_dec). -/
def VolumeParticipationBreadth.calculate (v_adv v_dec : Option ℚ) : VPBResult :=
  match v_adv, v_dec with
  | none, _ =>
      ⟨none, 0, 0, 0, false, "Missing advancing or declining volume data"⟩
  | some _, none =>
      ⟨none, 0, 0, 0, false, "Missing advancing or declining volume data"⟩
  | some va, some vd =>
      if va < 0 ∨ vd < 0 then
        ⟨none, va, vd, va + vd, false, "Negative volume values detected"⟩
      else
        if va + vd = 0 then
          ⟨none, 0, 0, 0, false, "Total volume is zero"⟩
        else
          ⟨some (va / (va + vd)), va, vd, va + vd, true, ""⟩

/-- IPBResult dataclass from src/aurora/features/ipb.py. -/
structure IPBResult where
  value : Option ℚ
  n_adv : ℤ
  n_dec : ℤ
  total_issues : ℤ
  is_valid : Bool
  message : String

/-- IssueParticipationBreadth.calculate from src/aurora/features/ipb.py:
structurally identical to VPB but over issue counts. -/
def IssueParticipationBreadth.calculate (n_adv n_dec : Option ℤ) : IPBResult :=
  match n_adv, n_dec with
  | none, _ =>
      ⟨none, 0, 0, 0, false, "Missing advancing or declining issue counts"⟩
  | some _, none =>
      ⟨none, 0, 0, 0, false, "Missing advancing or declining issue counts"⟩
  | some na, some nd =>
      if na < 0 ∨ nd < 0 then
        ⟨none, na, nd, na + nd, false, "Negative issue counts detected"⟩
      else
        if na + nd = 0 then
          ⟨none, 0, 0, 0, false, "Total issue count is zero"⟩
        else
          ⟨some ((na : ℚ) / ((na : ℚ) + (nd : ℚ))), na, nd, na + nd, true, ""⟩

/-- SBCResult dataclass from src/aurora/features/sbc.py. -/
structure SBCResult where
  value : Option ℚ
  pct_ma50 : Option ℚ
  pct_ma200 : Option ℚ
  is_valid : Bool
  message : String

/-- StructuralBreadthConfirmation.calculate from src/aurora/features/sbc.py
(lines 52-119).  The two degraded (single-input) branches reproduce the
Python conditional expression `pct / 100.0 if pct else None` literally:
a present value of exactly 0 is falsy in Python, so the value becomes
`None` while `is_valid` stays true, and no range check is executed on
the single-input paths (the `0 <= pct <= 100` validation is only reached
when both inputs are present). -/
def StructuralBreadthConfirmation.calculate (pct_ma50 pct_ma200 : Option ℚ) :
    SBCResult :=
  match pct_ma50, pct_ma200 with
  | none, none =>
      ⟨none, none, none, false, "Missing both MA50 and MA200 breadth data"⟩
  | none, some m200 =>
      ⟨if m200 ≠ 0 then some (m200 / 100) else none, none, some m200, true,
        "Using MA200 breadth only (MA50 missing)"⟩
  | some m50, none =>
      ⟨if m50 ≠ 0 then some (m50 / 100) else none, some m50, none, true,
        "Using MA50 breadth only (MA200 missing)"⟩
  | some m50, some m200 =>
      if ¬(0 ≤ m50 ∧ m50 ≤ 100) ∨ ¬(0 ≤ m200 ∧ m200 ≤ 100) then
        ⟨none, some m50, some m200, false,
          "MA breadth values out of expected range [0, 100]"⟩
      else
        ⟨some (((m50 + m200) / 2) / 100), some m50, some m200, true, ""⟩

/-- IPOResult dataclass from src/aurora/features/ipo.py. -/
structure IPOResult where
  value : Option ℚ
  spike_count : ℕ
  total_stocks : ℕ
  universe_median : Option ℚ
  is_valid : Bool
  message : String

/-- The inline median computation that both
InstitutionalParticipationOverlay.calculate (lines 124-130) and
calculate_simple (lines 184-189) perform on the sorted relative-volume
list: the average of the two middle order statistics for even length,
the middle order statistic for odd length. -/
def universeMedianOf (l : List ℚ) : ℚ :=
  let sorted_vals := l.mergeSort (· ≤ ·)
  let n := l.length
  if n % 2 = 0 then (sorted_vals.getD (n / 2 - 1) 0 + sorted_vals.getD (n / 2) 0) / 2
  else sorted_vals.getD (n / 2) 0

/-- InstitutionalParticipationOverlay.calculate from
src/aurora/features/ipo.py (lines 73-153): the dual filter.  Missing or
empty input and a threshold-length mismatch are the invalid branches;
absent thresholds default to 2.0 per stock; an absent universe median is
recomputed from the values; a stock spikes iff its relative volume
strictly exceeds both its threshold and the universe median. -/
def InstitutionalParticipationOverlay.calculate (rel_vol_values : Option (List ℚ))
    (rel_vol_thresholds : Option (List ℚ)) (universe_median : Option ℚ) : IPOResult :=
  match rel_vol_values with
  | none => ⟨none, 0, 0, none, false, "Missing relative volume data"⟩
  | some rv =>
      if rv.length = 0 then ⟨none, 0, 0, none, false, "Missing relative volume data"⟩
      else
        let n := rv.length
        let thresholds := match rel_vol_thresholds with
          | none => List.replicate n 2
          | some t => t
        if thresholds.length ≠ n then
          ⟨none, 0, n, universe_median, false,
            "Mismatch between rel_vol_values and thresholds lengths"⟩
        else
          let med := match universe_median with
            | none => universeMedianOf rv
            | some m => m
          let spike_count :=
            (rv.zip thresholds).countP fun p => decide (p.2 < p.1) && decide (med < p.1)
          ⟨some ((spike_count : ℚ) / (n : ℚ)), spike_count, n, some med, true, ""⟩

/-- InstitutionalParticipationOverlay.calculate_simple from
src/aurora/features/ipo.py (lines 155-206): fixed threshold for every
stock, universe median always recomputed from the values. -/
def InstitutionalParticipationOverlay.calculate_simple
    (rel_vol_values : Option (List ℚ)) (threshold : ℚ) : IPOResult :=
  match rel_vol_values with
  | none => ⟨none, 0, 0, none, false, "Missing relative volume data"⟩
  | some rv =>
      if rv.length = 0 then ⟨none, 0, 0, none, false, "Missing relative volume data"⟩
      else
        let n := rv.length
        let med := universeMedianOf rv
        let spike_count := rv.countP fun v => decide (threshold < v) && decide (med < v)
        ⟨some ((spike_count : ℚ) / (n : ℚ)), spike_count, n, some med, true,
          "Using simplified calculation with fixed threshold"⟩

/-- FeatureSet dataclass from src/aurora/core/types.py (lines 186-236).
It has fields for the raw inputs, the computed feature values and a
single scalar `universe_median_relvol`; it has no field for per-stock
`rel_vol_q90` thresholds.  The `normalized` dict field is unused by the
scoring path and not modelled. -/
structure FeatureSet where
  trade_date : ℤ
  v_adv : Option ℚ := none
  v_dec : Option ℚ := none
  n_adv : Option ℤ := none
  n_dec : Option ℤ := none
  pct_ma50 : Option ℚ := none
  pct_ma200 : Option ℚ := none
  rel_vol_values : Option (List ℚ) := none
  universe_median_relvol : Option ℚ := none
  vpb : Option ℚ := none
  ipb : Option ℚ := none
  sbc : Option ℚ := none
  ipo : Option ℚ := none

/-- FeatureAggregator.calculate from src/aurora/features/aggregator.py
(lines 33-105): VPB, IPB and SBC via their calculators, and IPO always
via `calculate_simple` with the fixed threshold 2.0 — the caller's
`universe_median_relvol` never reaches the spike test.  The stored
`universe_median_relvol` reproduces the Python truthiness of
`universe_median_relvol or ipo_result.universe_median` (a supplied 0.0
is falsy and replaced by the recomputed median). -/
def FeatureAggregator.calculate (trade_date : ℤ) (v_adv v_dec : Option ℚ)
    (n_adv n_dec : Option ℤ) (pct_ma50 pct_ma200 : Option ℚ)
    (rel_vol_values : Option (List ℚ)) (universe_median_relvol : Option ℚ) :
    FeatureSet :=
  let vpb_result := VolumeParticipationBreadth.calculate v_adv v_dec
  let ipb_result := IssueParticipationBreadth.calculate n_adv n_dec
  let sbc_result := StructuralBreadthConfirmation.calculate pct_ma50 pct_ma200
  let ipo_result := InstitutionalParticipationOverlay.calculate_simple rel_vol_values 2
  { trade_date := trade_date
    v_adv := v_adv
    v_dec := v_dec
    n_adv := n_adv
    n_dec := n_dec
    pct_ma50 := pct_ma50
    pct_ma200 := pct_ma200
    rel_vol_values := rel_vol_values
    universe_median_relvol :=
      match universe_median_relvol with
      | some m => if m ≠ 0 then some m else ipo_result.universe_median
      | none => ipo_result.universe_median
    vpb := vpb_result.value
    ipb := ipb_result.value
    sbc := sbc_result.value
    ipo := ipo_result.value }

/-- RollingStats dataclass from src/aurora/normalization/rolling.py:
a per-feature bounded FIFO of values and dates (two deques created with
maxlen = window in __post_init__). -/
structure RollingStats where
  feature_name : String
  window : ℕ
  min_observations : ℕ
  values : List ℚ
  dates : List ℤ

/-- Appending to a Python `deque(maxlen = n)`: the new element goes to
the tail and the head is dropped when the length would exceed n. -/
def dequePush {α : Type} (l : List α) (a : α) (n : ℕ) : List α :=
  let l2 := l ++ [a]
  l2.drop (l2.length - n)

/-- RollingStats.add from src/aurora/normalization/rolling.py (lines
40-49): it appends the value and the date to the two deques and does
nothing else — there is no date-monotonicity check and no finiteness
check in the source. -/
def RollingStats.add (st : RollingStats) (value : ℚ) (trade_date : ℤ) : RollingStats :=
  { st with
    values := dequePush st.values value st.window
    dates := dequePush st.dates trade_date st.window }

/-- RollingStats.count property. -/
def RollingStats.count (st : RollingStats) : ℕ := st.values.length

/-- RollingStats.is_ready property: count ≥ min_observations. -/
def RollingStats.is_ready (st : RollingStats) : Bool :=
  st.min_observations ≤ st.count

/-- The mean that np.mean computes on the stored values (used by
RollingStats.mean when ready). -/
noncomputable def RollingStats.meanVal (st : RollingStats) : ℝ :=
  ((st.values.sum : ℚ) : ℝ) / (st.count : ℝ)

/-- The sample standard deviation that np.std(values, ddof=1) computes on
the stored values (used by RollingStats.std when ready). -/
noncomputable def RollingStats.stdVal (st : RollingStats) : ℝ :=
  Real.sqrt ((st.values.map fun x => ((x : ℝ) - st.meanVal) ^ 2).sum / ((st.count : ℝ) - 1))

/-- RollingStats.mean property: None when not ready. -/
noncomputable def RollingStats.mean (st : RollingStats) : Option ℝ :=
  if st.is_ready then some st.meanVal else none

/-- RollingStats.std property: None when not ready. -/
noncomputable def RollingStats.std (st : RollingStats) : Option ℝ :=
  if st.is_ready then some st.stdVal else none

/-- zscore_normalize from src/aurora/normalization/methods.py (lines
24-54): 0 on zero standard deviation, otherwise the plain z-score with
NO clipping.  The source's extra guards (`std is None`, `np.isnan(std)`)
have no counterpart in the real-number model. -/
noncomputable def zscore_normalize (value mean std : ℝ) : ℝ :=
  if std = 0 then 0 else (value - mean) / std

/-- percentile_rank from src/aurora/normalization/methods.py (lines
57-86): the strict-less percentile of a value in a history, 50.0 on an
empty history. -/
noncomputable def percentile_rank (value : ℝ) (history : List ℝ) : ℝ :=
  if history = [] then 50
  else ((history.countP fun h => decide (h < value)) : ℝ) / (history.length : ℝ) * 100

/-- sigmoid_scale from src/aurora/normalization/methods.py (lines
165-184): 1 / (1 + exp(-steepness * (value - midpoint))). -/
noncomputable def sigmoid_scale (value midpoint steepness : ℝ) : ℝ :=
  1 / (1 + Real.exp (-steepness * (value - midpoint)))

/-- np.mean of a list of floats. -/
noncomputable def npMean (l : List ℝ) : ℝ := l.sum / (l.length : ℝ)

/-- np.std of a list of floats with the default ddof = 0 (population
standard deviation), as used on the composite history in
NormalizationPipeline.calculate_percentile. -/
noncomputable def npStd (l : List ℝ) : ℝ :=
  Real.sqrt ((l.map fun x => (x - npMean l) ^ 2).sum / (l.length : ℝ))

/-- The state of a NormalizationPipeline from
src/aurora/normalization/pipeline.py: one RollingStats per feature
(held by the MultiFeatureRollingCalculator) and the composite history
list used for percentile ranking. -/
structure NormalizationPipeline where
  window : ℕ
  min_observations : ℕ
  vpb_stats : RollingStats
  ipb_stats : RollingStats
  sbc_stats : RollingStats
  ipo_stats : RollingStats
  composite_history : List ℝ

/-- The z-score dict produced by NormalizationPipeline.normalize: one
optional entry per feature name, in the source's insertion order
VPB, IPB, SBC, IPO. -/
structure ZScoreSet where
  vpb : Option ℝ
  ipb : Option ℝ
  sbc : Option ℝ
  ipo : Option ℝ

/-- z_scores.get(name) on the dict modelled by ZScoreSet. -/
def ZScoreSet.get (zs : ZScoreSet) (name : String) : Option ℝ :=
  if name = "VPB" then zs.vpb
  else if name = "IPB" then zs.ipb
  else if name = "SBC" then zs.sbc
  else if name = "IPO" then zs.ipo
  else none

/-- The body of the per-feature loop of NormalizationPipeline.normalize
(pipeline.py lines 157-175): a `None` value or a not-ready baseline is
excluded; otherwise the unclipped z-score is taken against the
baseline's mean and std. -/
noncomputable def normalizeFeature (value : Option ℚ) (stats : RollingStats) : Option ℝ :=
  match value with
  | none => none
  | some v =>
      if stats.is_ready then some (zscore_normalize (v : ℝ) stats.meanVal stats.stdVal)
      else none

/-- NormalizationPipeline.normalize from
src/aurora/normalization/pipeline.py (lines 127-190): z-scores (not
clipped), the excluded-feature list in iteration order, and the
baseline status (COMPLETE iff nothing excluded, PARTIAL iff some
z-score was produced, INSUFFICIENT otherwise). -/
noncomputable def NormalizationPipeline.normalize (p : NormalizationPipeline)
    (features : FeatureSet) : ZScoreSet × List String × BaselineStatus :=
  let zv := normalizeFeature features.vpb p.vpb_stats
  let zi := normalizeFeature features.ipb p.ipb_stats
  let zs := normalizeFeature features.sbc p.sbc_stats
  let zo := normalizeFeature features.ipo p.ipo_stats
  let excluded :=
    (if zv.isNone then ["VPB"] else []) ++ (if zi.isNone then ["IPB"] else []) ++
    (if zs.isNone then ["SBC"] else []) ++ (if zo.isNone then ["IPO"] else [])
  let n_scores := ([zv, zi, zs, zo].countP Option.isSome)
  let status :=
    if excluded = [] then BaselineStatus.COMPLETE
    else if 0 < n_scores then BaselineStatus.PARTIAL
    else BaselineStatus.INSUFFICIENT
  (⟨zv, zi, zs, zo⟩, excluded, status)

/-- ScoreComponent dataclass from src/aurora/core/types.py. -/
structure ScoreComponent where
  name : String
  weight : ℝ
  raw_value : ℝ
  zscore : ℝ
  contribution : ℝ

/-- ScoreComponent.direction property from src/aurora/core/types.py:
elevated above z = 0.5, depressed below z = -0.5, neutral between. -/
noncomputable def ScoreComponent.direction (c : ScoreComponent) : String :=
  if 1 / 2 < c.zscore then "elevated"
  else if c.zscore < -(1 / 2) then "depressed"
  else "neutral"

/-- WEIGHTS from src/aurora/core/constants.py in dict insertion order:
VPB 0.30, IPB 0.25, SBC 0.25, IPO 0.20. -/
noncomputable def WEIGHTS : List (String × ℝ) :=
  [("VPB", 3 / 10), ("IPB", 1 / 4), ("SBC", 1 / 4), ("IPO", 1 / 5)]

/-- calculate_composite from src/aurora/scoring/composite.py (lines
19-74): the loop over WEIGHTS accumulates weight * z for each present
z-score and appends a ScoreComponent (raw_value 0.0, filled later by
the engine).  The `total_weight` the source also accumulates only feeds
a log line and a comment ("Don't rescale"), so the weighted sum is
returned unscaled. -/
noncomputable def calculate_composite (z_scores : ZScoreSet) : ℝ × List ScoreComponent :=
  WEIGHTS.foldl
    (fun acc nw =>
      match z_scores.get nw.1 with
      | none => acc
      | some z => (acc.1 + nw.2 * z, acc.2 ++ [⟨nw.1, nw.2, 0, z, nw.2 * z⟩]))
    (0, [])

/-- NormalizationPipeline.add_observation from pipeline.py (lines
192-211): each non-None feature value is appended to its RollingStats
with the trade date. -/
def addIfPresent (st : RollingStats) (v : Option ℚ) (d : ℤ) : RollingStats :=
  match v with
  | none => st
  | some q => st.add q d

/-- NormalizationPipeline.add_observation (see addIfPresent). -/
def NormalizationPipeline.add_observation (p : NormalizationPipeline)
    (features : FeatureSet) : NormalizationPipeline :=
  { p with
    vpb_stats := addIfPresent p.vpb_stats features.vpb features.trade_date
    ipb_stats := addIfPresent p.ipb_stats features.ipb features.trade_date
    sbc_stats := addIfPresent p.sbc_stats features.sbc features.trade_date
    ipo_stats := addIfPresent p.ipo_stats features.ipo features.trade_date }

/-- NormalizationPipeline.add_composite_to_history from pipeline.py
(lines 213-224): append, then keep only the last `window` entries when
over the window. -/
def NormalizationPipeline.add_composite_to_history (p : NormalizationPipeline)
    (composite : ℝ) : NormalizationPipeline :=
  let h := p.composite_history ++ [composite]
  { p with
    composite_history :=
      if p.window < h.length then h.drop (h.length - p.window) else h }

/-- NormalizationPipeline.calculate_percentile from pipeline.py (lines
226-288).  Fewer than 10 composite-history entries: inverted sigmoid
fallback with midpoint 0 and steepness 0.5.  Otherwise the strict-less
percentile; when it is ≤ 1 or ≥ 99 and the history's population
standard deviation is positive, the percentile is replaced by the
sigmoid of the composite against the history mean/std, clamped to
[1, 25] (low tail) or [75, 99] (high tail).  The returned score is
100 - percentile. -/
noncomputable def NormalizationPipeline.calculate_percentile (p : NormalizationPipeline)
    (composite : ℝ) : ℝ :=
  if p.composite_history.length < 10 then
    100 - sigmoid_scale composite 0 (1 / 2) * 100
  else
    let pct := percentile_rank composite p.composite_history
    let pct2 :=
      if pct ≤ 1 ∨ 99 ≤ pct then
        let hist_mean := npMean p.composite_history
        let hist_std := npStd p.composite_history
        if 0 < hist_std then
          let sigmoid_pct := sigmoid_scale composite hist_mean (1 / hist_std) * 100
          if pct ≤ 1 then max 1 (min 25 sigmoid_pct) else min 99 (max 75 sigmoid_pct)
        else pct
      else pct
    100 - pct2

/-- Band.from_score from src/aurora/core/types.py (lines 33-51). -/
noncomputable def Band.from_score (score : ℝ) : Band :=
  if score ≤ 25 then .GREEN
  else if score ≤ 50 then .LIGHT_GREEN
  else if score ≤ 75 then .YELLOW
  else .RED

/-- BMIResult dataclass from src/aurora/core/types.py (lines 109-130). -/
structure BMIResult where
  trade_date : ℤ
  score : ℝ
  band : Band
  explanation : String
  components : List ScoreComponent
  raw_composite : ℝ
  status : BaselineStatus
  excluded_features : List String

/-- The feature_map lookup used by BMIEngine._enrich_components. -/
def FeatureSet.feature_value (fs : FeatureSet) (name : String) : Option ℚ :=
  if name = "VPB" then fs.vpb
  else if name = "IPB" then fs.ipb
  else if name = "SBC" then fs.sbc
  else if name = "IPO" then fs.ipo
  else none

/-- BMIEngine._enrich_components from src/aurora/scoring/engine.py
(lines 116-151): fill each component's raw_value from the FeatureSet
(`feature_map.get(c.name, 0.0) or 0.0` collapses both a missing and a
0.0 value to 0.0, i.e. Option.getD 0). -/
noncomputable def BMIEngine.enrich_components (components : List ScoreComponent)
    (features : FeatureSet) : List ScoreComponent :=
  components.map fun c =>
    { c with raw_value := (((features.feature_value c.name).getD 0 : ℚ) : ℝ) }

/-- BMIEngine.calculate from src/aurora/scoring/engine.py (lines
52-114): normalize, compose, percentile-bound, classify, then append
the observation and the composite to the histories.  The explanation
string's formatted driver text is not modelled (only the band
description that seeds it); no step can raise.  Returns the BMIResult
and the updated pipeline state. -/
noncomputable def BMIEngine.calculate (pipeline : NormalizationPipeline)
    (features : FeatureSet) : BMIResult × NormalizationPipeline :=
  let norm := pipeline.normalize features
  let z_scores := norm.1
  let excluded := norm.2.1
  let status := norm.2.2
  let comp := calculate_composite z_scores
  let composite := comp.1
  let components := BMIEngine.enrich_components comp.2 features
  let aurora_score := pipeline.calculate_percentile composite
  let band := Band.from_score aurora_score
  let explanation := band.description
  let pipeline2 := (pipeline.add_observation features).add_composite_to_history composite
  (⟨features.trade_date, aurora_score, band, explanation, components, composite,
    status, excluded⟩, pipeline2)

/-- Python's round(x, ndigits) idealized over the reals: scale by
10^ndigits, round half to even, scale back.  (CPython rounds the
decimal representation of the binary float; on the exact values used
in this file, none of which sits on a tie, the two agree.) -/
noncomputable def pythonRound (x : ℝ) (ndigits : ℕ) : ℝ :=
  let y := x * 10 ^ ndigits
  let f : ℤ := ⌊y⌋
  let r : ℤ :=
    if y - (f : ℝ) < 1 / 2 then f
    else if 1 / 2 < y - (f : ℝ) then f + 1
    else if f % 2 = 0 then f else f + 1
  (r : ℝ) / 10 ^ ndigits

/-- One element of the "components" list in the dict that
BMIResult.to_dict builds. -/
structure ComponentDict where
  name : String
  weight : ℝ
  raw_value : ℝ
  zscore : ℝ
  contribution : ℝ
  direction : String

/-- The dict that BMIResult.to_dict builds (src/aurora/core/types.py
lines 132-153), with the trade date kept as an integer. -/
structure ResultDict where
  date : ℤ
  score : ℝ
  band : String
  explanation : String
  components : List ComponentDict
  raw_composite : ℝ
  status : String
  excluded_features : List String

/-- BMIResult.to_dict from src/aurora/core/types.py (lines 132-153):
score rounded to 1 decimal, raw_value and contribution to 4, zscore to
2; band and status serialized as their string values. -/
noncomputable def BMIResult.to_dict (r : BMIResult) : ResultDict :=
  { date := r.trade_date
    score := pythonRound r.score 1
    band := r.band.value
    explanation := r.explanation
    components := r.components.map fun c =>
      { name := c.name
        weight := c.weight
        raw_value := pythonRound c.raw_value 4
        zscore := pythonRound c.zscore 2
        contribution := pythonRound c.contribution 4
        direction := c.direction }
    raw_composite := pythonRound r.raw_composite 4
    status := r.status.value
    excluded_features := r.excluded_features }

/-- Band looked up from its serialized string value. -/
def Band.of_string (s : String) : Band :=
  if s = "GREEN" then .GREEN
  else if s = "LIGHT_GREEN" then .LIGHT_GREEN
  else if s = "YELLOW" then .YELLOW
  else .RED

/-- BaselineStatus looked up from its serialized string value. -/
def BaselineStatus.of_string (s : String) : BaselineStatus :=
  if s = "COMPLETE" then .COMPLETE
  else if s = "PARTIAL" then .PARTIAL
  else .INSUFFICIENT

/-- What a re-parse of the persisted record recovers. -/
structure ParsedResult where
  date : ℤ
  score : ℝ
  band : Band
  status : BaselineStatus
  component_zscores : List (String × ℝ)
  excluded_features : List String

/-- Modelled from the spec: the repository contains no BMIResult parser
(persistence is an external collaborator per spec section 6), so
re-parsing is modelled as reading the schema fields of the serialized
record back verbatim — date, score, band, status, the component
z-scores and the excluded features. -/
noncomputable def parse_result (d : ResultDict) : ParsedResult :=
  { date := d.date
    score := d.score
    band := Band.of_string d.band
    status := BaselineStatus.of_string d.status
    component_zscores := d.components.map fun c => (c.name, c.zscore)
    excluded_features := d.excluded_features }

/-- The composite as the spec states it: the sum of weight_F * z_F over
the present features, an absent feature contributing zero (spec section
4.4 and invariant I2). -/
noncomputable def specCompositeSum (zs : ZScoreSet) : ℝ :=
  (match zs.vpb with | some z => 3 / 10 * z | none => 0) +
  (match zs.ipb with | some z => 1 / 4 * z | none => 0) +
  (match zs.sbc with | some z => 1 / 4 * z | none => 0) +
  (match zs.ipo with | some z => 1 / 5 * z | none => 0)

/-- An empty RollingStats with the source's default window 63 and
min_observations 21 (rolling.py lines 30-33). -/
def emptyVPBStats : RollingStats :=
  { feature_name := "VPB", window := 63, min_observations := 21, values := [], dates := [] }

/-- The percentile value after the edge blend, as one expression (the
zeta-reduced body of the non-bootstrap branch of
NormalizationPipeline.calculate_percentile). -/
noncomputable def percentileAfterBlend (c : ℝ) (h : List ℝ) : ℝ :=
  if percentile_rank c h ≤ 1 ∨ 99 ≤ percentile_rank c h then
    if 0 < npStd h then
      if percentile_rank c h ≤ 1 then
        max 1 (min 25 (sigmoid_scale c (npMean h) (1 / npStd h) * 100))
      else min 99 (max 75 (sigmoid_scale c (npMean h) (1 / npStd h) * 100))
    else percentile_rank c h
  else percentile_rank c h

/-- The percentile bounder exactly as claim C2 states it: with fewer
than 10 composite-history entries, score = 100 - 100 * (1 / (1 +
exp(-0.5 * c))); with at least 10, the strict-less percentile p; if
p ≤ 1 or p ≥ 99 and the history's (population) standard deviation σ is
positive, p is replaced by p_sig = 100 / (1 + exp(-(c - μ) / σ))
clamped to [1, 25] for the low tail or [75, 99] for the high tail;
finally score = 100 - p. -/
noncomputable def percentileBounderSpec (c : ℝ) (h : List ℝ) : ℝ :=
  if h.length < 10 then
    100 - 100 * (1 / (1 + Real.exp (-(1 / 2) * c)))
  else
    let p := ((h.countP fun x => decide (x < c)) : ℝ) / (h.length : ℝ) * 100
    let mu := h.sum / (h.length : ℝ)
    let sigma := Real.sqrt ((h.map fun x => (x - h.sum / (h.length : ℝ)) ^ 2).sum / (h.length : ℝ))
    let p2 :=
      if (p ≤ 1 ∨ 99 ≤ p) ∧ 0 < sigma then
        let p_sig := 100 / (1 + Real.exp (-((c - mu) / sigma)))
        if p ≤ 1 then max 1 (min 25 p_sig) else min 99 (max 75 p_sig)
      else p
    100 - p2

/-- An empty RollingStats with the source defaults for any feature. -/
def emptyStats (name : String) : RollingStats :=
  { feature_name := name, window := 63, min_observations := 21, values := [], dates := [] }

/-- A freshly constructed NormalizationPipeline: default window 63,
min_observations 21, empty baselines and empty composite history. -/
def initialPipeline : NormalizationPipeline :=
  { window := 63
    min_observations := 21
    vpb_stats := emptyStats "VPB"
    ipb_stats := emptyStats "IPB"
    sbc_stats := emptyStats "SBC"
    ipo_stats := emptyStats "IPO"
    composite_history := [] }

/-- The FeatureSet the aggregator builds from an invalid input: a
negative advancing volume. -/
def invalidInputFeatures : FeatureSet :=
  FeatureAggregator.calculate 0 (some (-1)) (some 1) none none none none none none

/-- The per-stock threshold as the spec states it: the stock's own
rel_vol_q90 entry when thresholds were provided, the fixed fallback 2.0
otherwise. -/
def specIPOThreshold (q90 : Option (List ℚ)) (i : ℕ) : ℚ :=
  match q90 with
  | some t => t.getD i 0
  | none => 2

/-- The spike count as the spec states it: the number of positions i
with rv[i] > threshold[i] AND rv[i] > universe_median. -/
def specIPOSpikeCount (rv : List ℚ) (q90 : Option (List ℚ)) (med : ℚ) : ℕ :=
  (List.range rv.length).countP fun i =>
    decide (specIPOThreshold q90 i < rv.getD i 0) && decide (med < rv.getD i 0)

/-- A concrete BMIResult whose score (12.34) and component z-score
(1.234) do not sit at the serialized precisions. -/
noncomputable def sampleResult : BMIResult :=
  { trade_date := 0
    score := 1234 / 100
    band := Band.YELLOW
    explanation := ""
    components := [⟨"VPB", 3 / 10, 0, 1234 / 1000, 3702 / 10000⟩]
    raw_composite := 3702 / 10000
    status := BaselineStatus.COMPLETE
    excluded_features := [] }

/-- C3: for every z-score set (cardinality 0 to 4), calculate_composite
returns exactly the sum over the present features of weight_F * z_F —
with no renormalization by the sum of used weights, so a z-score set
holding only VPB yields 0.3 * z, not z. -/
theorem composite_is_unnormalized_weighted_sum (zs : ZScoreSet) (z : ℝ) :
    (calculate_composite zs).1 = specCompositeSum zs ∧
    (calculate_composite ⟨some z, none, none, none⟩).1 = 3 / 10 * z := by
  obtain ⟨v, i, s, o⟩ := zs
  constructor
  · cases v <;> cases i <;> cases s <;> cases o <;>
      simp [calculate_composite, WEIGHTS, ZScoreSet.get, specCompositeSum]
  · simp [calculate_composite, WEIGHTS, ZScoreSet.get]

/-- C6: the failing boundary of StructuralBreadthConfirmation.calculate
evaluated on the embedded code.  With only pct_ma200 present and equal
to 0, the Python truthiness test `pct_ma200 / 100.0 if pct_ma200 else
None` drops the value (None) while is_valid stays true, although the
spec (B4) says the exact boundary input 0 is accepted; and the
single-input path performs no range check, so an out-of-range 150
yields the present value 1.5.  The both-present path does accept the
boundaries 0 and 100. -/
theorem sbc_single_input_boundary_bug :
    (StructuralBreadthConfirmation.calculate none (some 0)).value = none ∧
    (StructuralBreadthConfirmation.calculate none (some 0)).is_valid = true ∧
    (StructuralBreadthConfirmation.calculate none (some 150)).value = some (3 / 2) ∧
    (StructuralBreadthConfirmation.calculate (some 150) none).value = some (3 / 2) ∧
    (StructuralBreadthConfirmation.calculate (some 0) (some 100)).value = some (1 / 2) ∧
    (StructuralBreadthConfirmation.calculate (some 100) none).value = some 1 := by
  refine ⟨?_, ?_, ?_, ?_, ?_, ?_⟩ <;> norm_num [StructuralBreadthConfirmation.calculate]

/-- C8 counterexample: RollingStats.add accepts a date (3) that is not
strictly later than the newest stored date (5) — the observation is
simply appended, with no rejection and no error, contradicting the
claimed date-monotonicity rejection. -/
theorem rolling_add_accepts_nonmonotonic_date :
    ((emptyVPBStats.add 1 5).add 2 3).dates = [5, 3] ∧
    ((emptyVPBStats.add 1 5).add 2 3).values = [1, 2] ∧
    ((emptyVPBStats.add 1 5).add 2 3).count = 2 := by
  refine ⟨by decide, by decide, by decide⟩

/-- C8 as the code has it: add performs no validation at all; it pushes
the value and the date to the tail of their deques and drops the head
exactly when the capacity (window, 63 by default) would be exceeded. -/
theorem rolling_add_pushes_and_drops_unvalidated (st : RollingStats) (v : ℚ) (d : ℤ)
    (hval : st.values.length ≤ st.window) (hdat : st.dates.length ≤ st.window)
    (hw : 0 < st.window) :
    (st.add v d).values =
      (if st.values.length < st.window then st.values else st.values.drop 1) ++ [v] ∧
    (st.add v d).dates =
      (if st.dates.length < st.window then st.dates else st.dates.drop 1) ++ [d] ∧
    (st.add v d).count = min (st.count + 1) st.window := by
  have key : ∀ (α : Type) (l : List α) (a : α), l.length ≤ st.window →
      dequePush l a st.window =
        (if l.length < st.window then l else l.drop 1) ++ [a] := by
    intro α l a hl
    unfold dequePush
    simp only [List.length_append, List.length_singleton]
    by_cases h : l.length < st.window
    · rw [if_pos h]
      have : l.length + 1 - st.window = 0 := by omega
      rw [this, List.drop_zero]
    · rw [if_neg h]
      have heq : l.length = st.window := by omega
      have : l.length + 1 - st.window = 1 := by omega
      rw [this, List.drop_append_of_le_length (by omega)]
  refine ⟨key ℚ st.values v hval, key ℤ st.dates d hdat, ?_⟩
  show (dequePush st.values v st.window).length = _
  rw [key ℚ st.values v hval]
  by_cases h : st.values.length < st.window <;>
    simp [h, RollingStats.count, List.length_drop] <;> omega

/-- C8 witness: the characterization applied to a concrete non-full and
well-formed state. -/
theorem rolling_add_pushes_and_drops_unvalidated_witness :
    ((emptyVPBStats.add 1 5).values = [] ++ [1]) ∧
    ((emptyVPBStats.add 1 5).dates = [] ++ [5]) ∧
    ((emptyVPBStats.add 1 5).count = min 1 63) := by
  have h := rolling_add_pushes_and_drops_unvalidated emptyVPBStats 1 5
    (by decide) (by decide) (by decide)
  simpa [emptyVPBStats] using h

/-- Unfolding of calculate_percentile into its two branches. -/
lemma calculate_percentile_unfold (p : NormalizationPipeline) (c : ℝ) :
    p.calculate_percentile c =
      if p.composite_history.length < 10 then 100 - sigmoid_scale c 0 (1 / 2) * 100
      else 100 - percentileAfterBlend c p.composite_history := rfl

/-- The sigmoid is strictly between 0 and 1. -/
lemma sigmoid_scale_bounds (v m k : ℝ) :
    0 < sigmoid_scale v m k ∧ sigmoid_scale v m k < 1 := by
  unfold sigmoid_scale
  have he : 0 < Real.exp (-k * (v - m)) := Real.exp_pos _
  constructor
  · positivity
  · rw [div_lt_one (by linarith)]
    linarith

/-- The strict-less percentile always lies in [0, 100]. -/
lemma percentile_rank_bounds (v : ℝ) (h : List ℝ) :
    0 ≤ percentile_rank v h ∧ percentile_rank v h ≤ 100 := by
  unfold percentile_rank
  by_cases hne : h = []
  · rw [if_pos hne]; norm_num
  · rw [if_neg hne]
    have hl : 0 < (h.length : ℝ) := by
      have h0 : h.length ≠ 0 := by simpa [List.length_eq_zero] using hne
      exact_mod_cast Nat.pos_of_ne_zero h0
    have hc : ((h.countP fun x => decide (x < v)) : ℝ) ≤ (h.length : ℝ) :=
      Nat.cast_le.mpr (List.countP_le_length _)
    have hc0 : (0 : ℝ) ≤ ((h.countP fun x => decide (x < v)) : ℝ) := Nat.cast_nonneg _
    constructor
    · positivity
    · have hdiv : ((h.countP fun x => decide (x < v)) : ℝ) / (h.length : ℝ) ≤ 1 := by
        rw [div_le_one hl]; exact hc
      nlinarith

/-- The blended percentile always lies in [0, 100]. -/
lemma percentileAfterBlend_bounds (c : ℝ) (h : List ℝ) :
    0 ≤ percentileAfterBlend c h ∧ percentileAfterBlend c h ≤ 100 := by
  obtain ⟨hp0, hp1⟩ := percentile_rank_bounds c h
  unfold percentileAfterBlend
  split_ifs with h1 h2 h3
  · have ha : (1 : ℝ) ≤ max 1 (min 25 (sigmoid_scale c (npMean h) (1 / npStd h) * 100)) :=
      le_max_left _ _
    have hb : max 1 (min 25 (sigmoid_scale c (npMean h) (1 / npStd h) * 100)) ≤ 25 :=
      max_le (by norm_num) (min_le_left _ _)
    constructor <;> linarith
  · have ha : (75 : ℝ) ≤ max 75 (sigmoid_scale c (npMean h) (1 / npStd h) * 100) :=
      le_max_left _ _
    have hb : min 99 (max 75 (sigmoid_scale c (npMean h) (1 / npStd h) * 100)) ≤ 99 :=
      min_le_left _ _
    have hc : (75 : ℝ) ≤ min 99 (max 75 (sigmoid_scale c (npMean h) (1 / npStd h) * 100)) :=
      le_min (by norm_num) ha
    constructor <;> linarith
  · exact ⟨hp0, hp1⟩
  · exact ⟨hp0, hp1⟩

/-- The score produced by calculate_percentile always lies in [0, 100]. -/
lemma calculate_percentile_bounds (p : NormalizationPipeline) (c : ℝ) :
    0 ≤ p.calculate_percentile c ∧ p.calculate_percentile c ≤ 100 := by
  rw [calculate_percentile_unfold]
  by_cases hlen : p.composite_history.length < 10
  · rw [if_pos hlen]
    obtain ⟨hs0, hs1⟩ := sigmoid_scale_bounds c 0 (1 / 2)
    constructor <;> nlinarith
  · rw [if_neg hlen]
    obtain ⟨hb0, hb1⟩ := percentileAfterBlend_bounds c p.composite_history
    constructor <;> linarith

/-- C1: every BMIResult the scoring engine produces — any composite, any
composite history (bootstrap or percentile path, zero or positive
standard deviation) — has a score in the closed interval [0, 100]. -/
theorem score_always_within_bounds (p : NormalizationPipeline) (features : FeatureSet) :
    0 ≤ (BMIEngine.calculate p features).1.score ∧
    (BMIEngine.calculate p features).1.score ≤ 100 :=
  calculate_percentile_bounds p (calculate_composite (p.normalize features).1).1

/-- C2: the pipeline's calculate_percentile computes exactly the formula
of the claim, for every composite and every composite history. -/
theorem calculate_percentile_matches_spec_formula (p : NormalizationPipeline) (c : ℝ) :
    p.calculate_percentile c = percentileBounderSpec c p.composite_history := by
  rw [calculate_percentile_unfold]
  unfold percentileBounderSpec
  by_cases hlen : p.composite_history.length < 10
  · rw [if_pos hlen, if_pos hlen]
    unfold sigmoid_scale
    rw [sub_zero]
    ring
  · rw [if_neg hlen, if_neg hlen]
    have hne : p.composite_history ≠ [] := by
      intro hnil
      rw [hnil] at hlen
      simp at hlen
    have hpr : percentile_rank c p.composite_history =
        ((p.composite_history.countP fun x => decide (x < c)) : ℝ) /
          (p.composite_history.length : ℝ) * 100 := by
      unfold percentile_rank
      rw [if_neg hne]
    unfold percentileAfterBlend
    rw [hpr]
    simp only [npStd, npMean]
    set P := ((p.composite_history.countP fun x => decide (x < c)) : ℝ) /
      (p.composite_history.length : ℝ) * 100 with hP
    set M := p.composite_history.sum / (p.composite_history.length : ℝ) with hM
    set S := Real.sqrt ((p.composite_history.map fun x => (x - M) ^ 2).sum /
      (p.composite_history.length : ℝ)) with hS
    have hsig : sigmoid_scale c M (1 / S) * 100 = 100 / (1 + Real.exp (-((c - M) / S))) := by
      unfold sigmoid_scale
      rw [show -(1 / S) * (c - M) = -((c - M) / S) by ring]
      ring
    by_cases h1 : P ≤ 1 ∨ 99 ≤ P
    · by_cases h2 : 0 < S
      · rw [hsig, if_pos h1, if_pos h2,
          if_pos (show (P ≤ 1 ∨ 99 ≤ P) ∧ 0 < S from ⟨h1, h2⟩)]
      · rw [if_pos h1, if_neg h2,
          if_neg (show ¬((P ≤ 1 ∨ 99 ≤ P) ∧ 0 < S) by tauto)]
    · rw [if_neg h1, if_neg (show ¬((P ≤ 1 ∨ 99 ≤ P) ∧ 0 < S) by tauto)]

/-- A present VPB z-score produces the corresponding (unclipped)
ScoreComponent in the compositor's output. -/
lemma mem_composite_vpb (zs : ZScoreSet) (z : ℝ) (hz : zs.vpb = some z) :
    (⟨"VPB", 3 / 10, 0, z, 3 / 10 * z⟩ : ScoreComponent) ∈ (calculate_composite zs).2 := by
  obtain ⟨v, i, s, o⟩ := zs
  simp only [ZScoreSet.vpb] at hz
  subst hz
  cases i <;> cases s <;> cases o <;>
    simp [calculate_composite, WEIGHTS, ZScoreSet.get]

/-- C4: against a ready baseline the normalizer produces
z = (value - mean) / std for std > 0 and z = 0 for std = 0; the z-score
is unbounded (for any K some inputs exceed it in absolute value); and
for a present feature with a ready baseline exactly this unclipped
z-score reaches the stored components of the engine's BMIResult. -/
theorem zscore_unclipped_and_unbounded (v m s K : ℝ) (hs : 0 < s) :
    zscore_normalize v m s = (v - m) / s ∧
    zscore_normalize v m 0 = 0 ∧
    (∃ v2 m2 s2 : ℝ, 0 < s2 ∧ K < |zscore_normalize v2 m2 s2|) ∧
    ∀ (p : NormalizationPipeline) (features : FeatureSet) (q : ℚ),
      features.vpb = some q → p.vpb_stats.is_ready = true →
      ∃ comp ∈ (BMIEngine.calculate p features).1.components,
        comp.name = "VPB" ∧
        comp.zscore = zscore_normalize (q : ℝ) p.vpb_stats.meanVal p.vpb_stats.stdVal := by
  refine ⟨?_, ?_, ?_, ?_⟩
  · unfold zscore_normalize
    rw [if_neg (ne_of_gt hs)]
  · unfold zscore_normalize
    rw [if_pos rfl]
  · refine ⟨|K| + 1, 0, 1, one_pos, ?_⟩
    unfold zscore_normalize
    rw [if_neg one_ne_zero]
    have h1 : (|K| + 1 - 0) / 1 = |K| + 1 := by ring
    rw [h1, abs_of_nonneg (by positivity)]
    have := le_abs_self K
    linarith
  · intro p features q hq hready
    have hz : (p.normalize features).1.vpb =
        some (zscore_normalize (q : ℝ) p.vpb_stats.meanVal p.vpb_stats.stdVal) := by
      show normalizeFeature features.vpb p.vpb_stats = _
      rw [hq]
      unfold normalizeFeature
      rw [hready]
      simp
    have hmem := mem_composite_vpb (p.normalize features).1 _ hz
    exact ⟨_, List.mem_map_of_mem _ hmem, rfl, rfl⟩

/-- C4 witness: the characterization applied at value 2, mean 0,
std 1, bound K = 1. -/
theorem zscore_unclipped_and_unbounded_witness :
    zscore_normalize 2 0 1 = (2 - 0) / 1 ∧
    zscore_normalize 2 0 0 = 0 ∧
    (∃ v2 m2 s2 : ℝ, 0 < s2 ∧ 1 < |zscore_normalize v2 m2 s2|) ∧
    ∀ (p : NormalizationPipeline) (features : FeatureSet) (q : ℚ),
      features.vpb = some q → p.vpb_stats.is_ready = true →
      ∃ comp ∈ (BMIEngine.calculate p features).1.components,
        comp.name = "VPB" ∧
        comp.zscore = zscore_normalize (q : ℝ) p.vpb_stats.meanVal p.vpb_stats.stdVal :=
  zscore_unclipped_and_unbounded 2 0 1 1 (by norm_num)

/-- C5 counterexample: for inputs containing a negative volume the
pipeline DOES return a BMIResult — no error propagates.  On a fresh
pipeline the negative v_adv makes VPB absent, everything is excluded,
and a full BMIResult with score 50 (bootstrap sigmoid of composite 0)
and status INSUFFICIENT is emitted. -/
theorem invalid_input_still_yields_result :
    invalidInputFeatures.vpb = none ∧
    (BMIEngine.calculate initialPipeline invalidInputFeatures).1.score = 50 ∧
    (BMIEngine.calculate initialPipeline invalidInputFeatures).1.status =
      BaselineStatus.INSUFFICIENT ∧
    (BMIEngine.calculate initialPipeline invalidInputFeatures).1.excluded_features =
      ["VPB", "IPB", "SBC", "IPO"] := by
  have hvpb : invalidInputFeatures.vpb = none := by
    show (VolumeParticipationBreadth.calculate (some (-1)) (some 1)).value = none
    norm_num [VolumeParticipationBreadth.calculate]
  have hnorm : initialPipeline.normalize invalidInputFeatures =
      (⟨none, none, none, none⟩, ["VPB", "IPB", "SBC", "IPO"],
        BaselineStatus.INSUFFICIENT) := by
    unfold NormalizationPipeline.normalize
    rw [show invalidInputFeatures.vpb = none from hvpb]
    rfl
  refine ⟨hvpb, ?_, ?_, ?_⟩
  · show initialPipeline.calculate_percentile
        (calculate_composite (initialPipeline.normalize invalidInputFeatures).1).1 = 50
    rw [hnorm]
    have hcomp : (calculate_composite ⟨none, none, none, none⟩).1 = 0 := by
      simp [calculate_composite, WEIGHTS, ZScoreSet.get]
    rw [hcomp, calculate_percentile_unfold]
    rw [if_pos (by simp [initialPipeline])]
    unfold sigmoid_scale
    rw [show -(1 / 2 : ℝ) * (0 - 0) = 0 by ring, Real.exp_zero]
    norm_num
  · show (initialPipeline.normalize invalidInputFeatures).2.2 = _
    rw [hnorm]
  · show (initialPipeline.normalize invalidInputFeatures).2.1 = _
    rw [hnorm]

/-- C5 as the code has it: a negative volume, a negative count and an
out-of-range percentage (on the both-present path, the only one the
source validates — the single-input path instead accepts the value,
the C6 bug) do not raise and do not suppress the result: each affected
feature comes out absent from the aggregator, is excluded during
normalization, the baseline status is degraded away from COMPLETE, and
the engine still produces a BMIResult. -/
theorem invalid_input_yields_exclusion_not_error (p : NormalizationPipeline) (td : ℤ)
    (va vd : ℚ) (na nd : ℤ) (m50 m200 : ℚ) (rvv : Option (List ℚ)) (um : Option ℚ)
    (hv : va < 0 ∨ vd < 0) (hn : na < 0 ∨ nd < 0) (hm : ¬(0 ≤ m50 ∧ m50 ≤ 100)) :
    (FeatureAggregator.calculate td (some va) (some vd) (some na) (some nd)
      (some m50) (some m200) rvv um).vpb = none ∧
    (FeatureAggregator.calculate td (some va) (some vd) (some na) (some nd)
      (some m50) (some m200) rvv um).ipb = none ∧
    (FeatureAggregator.calculate td (some va) (some vd) (some na) (some nd)
      (some m50) (some m200) rvv um).sbc = none ∧
    "VPB" ∈ (BMIEngine.calculate p (FeatureAggregator.calculate td (some va) (some vd)
      (some na) (some nd) (some m50) (some m200) rvv um)).1.excluded_features ∧
    "IPB" ∈ (BMIEngine.calculate p (FeatureAggregator.calculate td (some va) (some vd)
      (some na) (some nd) (some m50) (some m200) rvv um)).1.excluded_features ∧
    "SBC" ∈ (BMIEngine.calculate p (FeatureAggregator.calculate td (some va) (some vd)
      (some na) (some nd) (some m50) (some m200) rvv um)).1.excluded_features ∧
    (BMIEngine.calculate p (FeatureAggregator.calculate td (some va) (some vd)
      (some na) (some nd) (some m50) (some m200) rvv um)).1.status ≠
      BaselineStatus.COMPLETE := by
  have hvpb : (FeatureAggregator.calculate td (some va) (some vd) (some na) (some nd)
      (some m50) (some m200) rvv um).vpb = none := by
    show (VolumeParticipationBreadth.calculate (some va) (some vd)).value = none
    simp only [VolumeParticipationBreadth.calculate]
    rw [if_pos hv]
  have hipb : (FeatureAggregator.calculate td (some va) (some vd) (some na) (some nd)
      (some m50) (some m200) rvv um).ipb = none := by
    show (IssueParticipationBreadth.calculate (some na) (some nd)).value = none
    simp only [IssueParticipationBreadth.calculate]
    rw [if_pos hn]
  have hsbc : (FeatureAggregator.calculate td (some va) (some vd) (some na) (some nd)
      (some m50) (some m200) rvv um).sbc = none := by
    show (StructuralBreadthConfirmation.calculate (some m50) (some m200)).value = none
    simp only [StructuralBreadthConfirmation.calculate]
    rw [if_pos (Or.inl hm)]
  refine ⟨hvpb, hipb, hsbc, ?_, ?_, ?_, ?_⟩
  · show "VPB" ∈ (p.normalize (FeatureAggregator.calculate td (some va) (some vd)
      (some na) (some nd) (some m50) (some m200) rvv um)).2.1
    unfold NormalizationPipeline.normalize
    rw [hvpb]
    simp [normalizeFeature]
  · show "IPB" ∈ (p.normalize (FeatureAggregator.calculate td (some va) (some vd)
      (some na) (some nd) (some m50) (some m200) rvv um)).2.1
    unfold NormalizationPipeline.normalize
    rw [hipb]
    simp [normalizeFeature]
  · show "SBC" ∈ (p.normalize (FeatureAggregator.calculate td (some va) (some vd)
      (some na) (some nd) (some m50) (some m200) rvv um)).2.1
    unfold NormalizationPipeline.normalize
    rw [hsbc]
    simp [normalizeFeature]
  · show (p.normalize (FeatureAggregator.calculate td (some va) (some vd)
      (some na) (some nd) (some m50) (some m200) rvv um)).2.2 ≠ BaselineStatus.COMPLETE
    unfold NormalizationPipeline.normalize
    rw [hvpb]
    simp only [normalizeFeature, Option.isNone_none, if_true]
    rw [if_neg (by simp)]
    have hPI : ∀ (c : Prop) (inst : Decidable c),
        (if c then BaselineStatus.PARTIAL else BaselineStatus.INSUFFICIENT) ≠
          BaselineStatus.COMPLETE := by
      intro c inst
      split <;> simp
    exact hPI _ _

/-- C5 witness: the no-error behaviour applied on a fresh pipeline at
the concrete invalid inputs v_adv = -1 (negative volume),
n_adv = -2 (negative count) and pct_ma50 = 150 (out of range, with
pct_ma200 = 50 present). -/
theorem invalid_input_yields_exclusion_not_error_witness :
    (FeatureAggregator.calculate 0 (some (-1)) (some 1) (some (-2)) (some 5)
      (some 150) (some 50) none none).vpb = none ∧
    (FeatureAggregator.calculate 0 (some (-1)) (some 1) (some (-2)) (some 5)
      (some 150) (some 50) none none).ipb = none ∧
    (FeatureAggregator.calculate 0 (some (-1)) (some 1) (some (-2)) (some 5)
      (some 150) (some 50) none none).sbc = none ∧
    "VPB" ∈ (BMIEngine.calculate initialPipeline (FeatureAggregator.calculate 0
      (some (-1)) (some 1) (some (-2)) (some 5) (some 150) (some 50) none
      none)).1.excluded_features ∧
    "IPB" ∈ (BMIEngine.calculate initialPipeline (FeatureAggregator.calculate 0
      (some (-1)) (some 1) (some (-2)) (some 5) (some 150) (some 50) none
      none)).1.excluded_features ∧
    "SBC" ∈ (BMIEngine.calculate initialPipeline (FeatureAggregator.calculate 0
      (some (-1)) (some 1) (some (-2)) (some 5) (some 150) (some 50) none
      none)).1.excluded_features ∧
    (BMIEngine.calculate initialPipeline (FeatureAggregator.calculate 0 (some (-1))
      (some 1) (some (-2)) (some 5) (some 150) (some 50) none none)).1.status ≠
      BaselineStatus.COMPLETE :=
  invalid_input_yields_exclusion_not_error initialPipeline 0 (-1) 1 (-2) 5 150 50
    none none (Or.inl (by norm_num)) (Or.inl (by norm_num)) (by norm_num)

/-- Element-wise zip counting equals index-wise counting over the range
of positions, for equal-length lists. -/
lemma countP_zip_eq_range (p : ℚ × ℚ → Bool) :
    ∀ (l t : List ℚ), t.length = l.length →
      (l.zip t).countP p =
        (List.range l.length).countP fun i => p (l.getD i 0, t.getD i 0) := by
  intro l
  induction l with
  | nil => intro t ht; simp
  | cons a l ih =>
      intro t ht
      cases t with
      | nil => simp at ht
      | cons b t =>
          have ht2 : t.length = l.length := by
            simpa using ht
          simp only [List.zip_cons_cons, List.countP_cons, List.length_cons,
            List.range_succ_eq_map, List.countP_map, List.getD_cons_zero]
          rw [ih t ht2]
          congr 1

/-- Zipping against a constant replicate specializes the pair predicate. -/
lemma countP_zip_replicate (p : ℚ × ℚ → Bool) (c : ℚ) :
    ∀ l : List ℚ,
      (l.zip (List.replicate l.length c)).countP p = l.countP fun v => p (v, c) := by
  intro l
  induction l with
  | nil => simp
  | cons a l ih =>
      simp only [List.length_cons, List.replicate_succ, List.zip_cons_cons,
        List.countP_cons, ih]

/-- The median of a constant nonempty list is that constant. -/
lemma universeMedianOf_const (l : List ℚ) (c : ℚ) (hne : l ≠ [])
    (hall : ∀ x ∈ l, x = c) : universeMedianOf l = c := by
  unfold universeMedianOf
  have hperm : (l.mergeSort (· ≤ ·)).Perm l := List.mergeSort_perm l _
  have hlen : (l.mergeSort (· ≤ ·)).length = l.length := hperm.length_eq
  have hpos : 0 < l.length := List.length_pos.mpr hne
  have hget : ∀ i, i < l.length → (l.mergeSort (· ≤ ·)).getD i 0 = c := by
    intro i hi
    have hi2 : i < (l.mergeSort (· ≤ ·)).length := by omega
    rw [List.getD_eq_getElem _ _ hi2]
    exact hall _ (hperm.mem_iff.mp (List.getElem_mem hi2))
  by_cases he : l.length % 2 = 0
  · rw [if_pos he, hget _ (by omega), hget _ (by omega)]
    ring
  · rw [if_neg he, hget _ (by omega)]

/-- C7: on a non-empty rel_vol list (with same-length thresholds when
provided, per the data model) the dual filter returns exactly
(spike count) / n, where a stock spikes iff its relative volume
strictly exceeds both its threshold (its q90 entry, or the fallback
2.0) and the universe median (the standard median of the values unless
precomputed); the value is absent on missing or empty input; and when
every value equals the computed universe median the value is 0, because
both comparisons are strict. -/
theorem ipo_dual_filter_formula (rv : List ℚ) (q90 : Option (List ℚ)) (um : Option ℚ)
    (c : ℚ) (hne : rv ≠ []) (hlen : ∀ t, q90 = some t → t.length = rv.length) :
    (InstitutionalParticipationOverlay.calculate (some rv) q90 um).value =
      some ((specIPOSpikeCount rv q90 (um.getD (universeMedianOf rv)) : ℚ) /
        (rv.length : ℚ)) ∧
    (InstitutionalParticipationOverlay.calculate none q90 um).value = none ∧
    (InstitutionalParticipationOverlay.calculate (some []) q90 um).value = none ∧
    ((∀ x ∈ rv, x = c) → um = none →
      (InstitutionalParticipationOverlay.calculate (some rv) q90 um).value = some 0) := by
  have hn0 : rv.length ≠ 0 := by simpa [List.length_eq_zero] using hne
  have hrepl : ∀ i, i < rv.length → (List.replicate rv.length (2 : ℚ)).getD i 0 = 2 := by
    intro i hi
    rw [List.getD_eq_getElem _ _ (by simpa using hi), List.getElem_replicate]
  have h1 : ∀ med : ℚ,
      (InstitutionalParticipationOverlay.calculate (some rv) q90 (some med)).value =
        some ((specIPOSpikeCount rv q90 med : ℚ) / (rv.length : ℚ)) ∧
      (InstitutionalParticipationOverlay.calculate (some rv) q90 none).value =
        some ((specIPOSpikeCount rv q90 (universeMedianOf rv) : ℚ) / (rv.length : ℚ)) := by
    have key : ∀ med : ℚ,
        ((rv.zip (match q90 with
            | none => List.replicate rv.length 2
            | some t => t)).countP fun p => decide (p.2 < p.1) && decide (med < p.1)) =
          specIPOSpikeCount rv q90 med := by
      intro med
      cases q90 with
      | none =>
          rw [countP_zip_eq_range _ rv _ (List.length_replicate _ _)]
          unfold specIPOSpikeCount
          apply List.countP_congr
          intro i hi
          rw [hrepl i (List.mem_range.mp hi)]
          simp [specIPOThreshold]
      | some t =>
          rw [countP_zip_eq_range _ rv _ (hlen t rfl)]
          unfold specIPOSpikeCount
          apply List.countP_congr
          intro i _
          simp [specIPOThreshold]
    intro med
    constructor
    · simp only [InstitutionalParticipationOverlay.calculate]
      rw [if_neg hn0]
      cases q90 with
      | none =>
          rw [if_neg (by simp)]
          rw [key med]
      | some t =>
          rw [if_neg (by simp [hlen t rfl])]
          rw [key med]
    · simp only [InstitutionalParticipationOverlay.calculate]
      rw [if_neg hn0]
      cases q90 with
      | none =>
          rw [if_neg (by simp)]
          rw [key (universeMedianOf rv)]
      | some t =>
          rw [if_neg (by simp [hlen t rfl])]
          rw [key (universeMedianOf rv)]
  have hmain : (InstitutionalParticipationOverlay.calculate (some rv) q90 um).value =
      some ((specIPOSpikeCount rv q90 (um.getD (universeMedianOf rv)) : ℚ) /
        (rv.length : ℚ)) := by
    cases um with
    | none => exact (h1 0).2
    | some m => exact (h1 m).1
  refine ⟨hmain, rfl, rfl, ?_⟩
  intro hall hum
  subst hum
  rw [hmain]
  have hmed : universeMedianOf rv = c := universeMedianOf_const rv c hne hall
  have hcount : specIPOSpikeCount rv q90
      ((none : Option ℚ).getD (universeMedianOf rv)) = 0 := by
    unfold specIPOSpikeCount
    rw [List.countP_eq_zero]
    intro i hi
    have hi2 : i < rv.length := List.mem_range.mp hi
    have hval : rv.getD i 0 = c := by
      rw [List.getD_eq_getElem _ _ hi2]
      exact hall _ (List.getElem_mem hi2)
    simp only [Option.getD_none, hval, hmed]
    simp
  rw [hcount]
  norm_num

/-- C7 witness: the dual-filter formula applied at the concrete input
rv = [3, 1, 2] with no thresholds and no precomputed median. -/
theorem ipo_dual_filter_formula_witness :
    (InstitutionalParticipationOverlay.calculate (some [3, 1, 2]) none none).value =
      some ((specIPOSpikeCount [3, 1, 2] none
        ((none : Option ℚ).getD (universeMedianOf [3, 1, 2])) : ℚ) /
        (([3, 1, 2] : List ℚ).length : ℚ)) :=
  (ipo_dual_filter_formula [3, 1, 2] none none 0 (by simp)
    (fun t ht => by cases ht)).1

/-- pythonRound evaluated when the fractional part of the scaled value
is below one half: the result is the floor, scaled back. -/
lemma pythonRound_eq_of_floor (x : ℝ) (d : ℕ) (f : ℤ) (h1 : (f : ℝ) ≤ x * 10 ^ d)
    (h2 : x * 10 ^ d - (f : ℝ) < 1 / 2) : pythonRound x d = (f : ℝ) / 10 ^ d := by
  have hf : ⌊x * 10 ^ d⌋ = f := by
    rw [Int.floor_eq_iff]
    refine ⟨h1, ?_⟩
    linarith
  simp only [pythonRound]
  rw [hf, if_pos h2]

/-- C9 counterexample: serializing a BMIResult with score 12.34 and a
component z-score of 1.234 and re-parsing does NOT preserve them —
to_dict stores round(score, 1) = 12.3 and round(zscore, 2) = 1.23. -/
theorem serialization_not_exact :
    (parse_result sampleResult.to_dict).score ≠ sampleResult.score ∧
    (parse_result sampleResult.to_dict).component_zscores ≠
      sampleResult.components.map fun c => (c.name, c.zscore) := by
  have hs : pythonRound ((1234 : ℝ) / 100) 1 = (123 : ℝ) / 10 := by
    have h := pythonRound_eq_of_floor ((1234 : ℝ) / 100) 1 123 (by norm_num) (by norm_num)
    rw [h]
    norm_num
  have hz : pythonRound ((1234 : ℝ) / 1000) 2 = (123 : ℝ) / 100 := by
    have h := pythonRound_eq_of_floor ((1234 : ℝ) / 1000) 2 123 (by norm_num) (by norm_num)
    rw [h]
    norm_num
  constructor
  · show pythonRound ((1234 : ℝ) / 100) 1 ≠ (1234 : ℝ) / 100
    rw [hs]
    norm_num
  · show [("VPB", pythonRound ((1234 : ℝ) / 1000) 2)] ≠ [("VPB", (1234 : ℝ) / 1000)]
    rw [hz]
    intro hcon
    simp only [List.cons.injEq, Prod.mk.injEq] at hcon
    exact absurd hcon.1.2 (by norm_num)

/-- C9 as the code has it: serializing a BMIResult to the persistence
schema and re-parsing preserves band, status, date and the excluded
features exactly, but the score comes back as round(score, 1) and every
component z-score as round(zscore, 2) — i.e. they are preserved exactly
only when already at that precision. -/
theorem serialization_roundtrip_rounds (r : BMIResult) :
    (parse_result r.to_dict).band = r.band ∧
    (parse_result r.to_dict).status = r.status ∧
    (parse_result r.to_dict).date = r.trade_date ∧
    (parse_result r.to_dict).excluded_features = r.excluded_features ∧
    (parse_result r.to_dict).score = pythonRound r.score 1 ∧
    (parse_result r.to_dict).component_zscores =
      r.components.map fun comp => (comp.name, pythonRound comp.zscore 2) := by
  refine ⟨?_, ?_, rfl, rfl, rfl, ?_⟩
  · show Band.of_string r.band.value = r.band
    cases r.band <;> rfl
  · show BaselineStatus.of_string r.status.value = r.status
    cases r.status <;> rfl
  · show (r.components.map _).map _ = _
    rw [List.map_map]
    rfl

/-- C10: through FeatureAggregator.calculate — the path that builds the
FeatureSet consumed by the engine — IPO is always computed by
calculate_simple with the fixed threshold 2.0 and a universe median
recomputed from the values: the caller-supplied universe_median_relvol
is ignored by the spike test (the result is independent of it and uses
universeMedianOf rv), and the FeatureSet interface offers no per-stock
rel_vol_q90 thresholds, so calculate_simple coincides with the full
dual filter run with its fallback thresholds. -/
theorem aggregator_ipo_fixed_threshold (td : ℤ) (va vd : Option ℚ) (na nd : Option ℤ)
    (p50 p200 : Option ℚ) (rv : List ℚ) (um um2 : Option ℚ) (hne : rv ≠ []) :
    (FeatureAggregator.calculate td va vd na nd p50 p200 (some rv) um).ipo =
      (InstitutionalParticipationOverlay.calculate_simple (some rv) 2).value ∧
    (InstitutionalParticipationOverlay.calculate_simple (some rv) 2).value =
      (InstitutionalParticipationOverlay.calculate (some rv) none none).value ∧
    (FeatureAggregator.calculate td va vd na nd p50 p200 (some rv) um).ipo =
      (FeatureAggregator.calculate td va vd na nd p50 p200 (some rv) um2).ipo ∧
    (FeatureAggregator.calculate td va vd na nd p50 p200 (some rv) um).ipo =
      some (((rv.countP fun v => decide (2 < v) && decide (universeMedianOf rv < v)) : ℚ) /
        (rv.length : ℚ)) := by
  have hn0 : rv.length ≠ 0 := by simpa [List.length_eq_zero] using hne
  have hsimple : (InstitutionalParticipationOverlay.calculate_simple (some rv) 2).value =
      some (((rv.countP fun v => decide (2 < v) && decide (universeMedianOf rv < v)) : ℚ) /
        (rv.length : ℚ)) := by
    simp only [InstitutionalParticipationOverlay.calculate_simple]
    rw [if_neg hn0]
  have hfull : (InstitutionalParticipationOverlay.calculate (some rv) none none).value =
      some (((rv.countP fun v => decide (2 < v) && decide (universeMedianOf rv < v)) : ℚ) /
        (rv.length : ℚ)) := by
    simp only [InstitutionalParticipationOverlay.calculate]
    rw [if_neg hn0, if_neg (by simp)]
    rw [countP_zip_replicate
      (fun p => decide (p.2 < p.1) && decide (universeMedianOf rv < p.1)) 2 rv]
  exact ⟨rfl, hsimple.trans hfull.symm, rfl, hsimple⟩

/-- C10 witness: at rv = [3, 3, 3] the recomputed universe median is 3
and nothing spikes, for any caller-supplied median (here 0, which
would admit all three stocks if it were used). -/
theorem aggregator_ipo_fixed_threshold_witness :
    (FeatureAggregator.calculate 0 none none none none none none (some [3, 3, 3])
        (some 0)).ipo =
      some (((([3, 3, 3] : List ℚ).countP fun v =>
        decide (2 < v) && decide (universeMedianOf [3, 3, 3] < v)) : ℚ) /
        (([3, 3, 3] : List ℚ).length : ℚ)) :=
  (aggregator_ipo_fixed_threshold 0 none none none none none none [3, 3, 3]
    (some 0) none (by simp)).2.2.2

end Aurora
